import Mathlib

/-!
Verification of the cache-consistency and priority-scoring core of the
JanSetu civic-issue reporting backend.

The development shallowly embeds the relevant controller logic:

* the automatic priority scorer (`computeAutoPriority`) and the report
  creation flow around it;
* the Redis-backed cache service (`RedisService`): get/set/delete,
  glob-pattern purges, and its degrade-to-miss behaviour when the backing
  store is unavailable or a client operation throws;
* the cache-key builders used by the cached read paths and the
  invalidation patterns applied by the mutating handlers;
* the transactional mutation handlers (social post creation, voting,
  report resolution, admin deletion) as pure state transitions, with the
  sequence of database/cache events made explicit where ordering matters.

Fallible steps (SQL queries, Redis client calls) are modelled by passing
their outcome explicitly (`Except`/flags); a handler's `try/catch` then
becomes a `match` on that outcome, so "no exception escapes" is visible
in the (total, exception-free) return types.
-/

namespace JanSetu

/-! ## Priority scoring (source: `computeAutoPriority` in the reports controller) -/

/-- High-severity category set, weight 3 (verbatim from `computeAutoPriority`). -/
def highSeverityCategories : List String :=
  ["Public Safety & Emergency",
   "Water Supply & Sewerage",
   "Traffic & Transport",
   "Municipal Urban Planning & Encroachment Removal"]

/-- Medium-severity category set, weight 2 (verbatim from `computeAutoPriority`). -/
def mediumSeverityCategories : List String :=
  ["Street Lighting & Electrical",
   "Roads & Infrastructure",
   "Public Health & Hygiene"]

/-- Category severity weight: 3 for the high set, 2 for the medium set, else 1. -/
def severityWeight (category : String) : Nat :=
  if category ∈ highSeverityCategories then 3
  else if category ∈ mediumSeverityCategories then 2
  else 1

/-- The fixed score-to-tier thresholds of `computeAutoPriority`. -/
def priorityOfScore (score : Nat) : String :=
  if score ≥ 15 then "critical"
  else if score ≥ 8 then "high"
  else if score ≥ 3 then "medium"
  else "low"

/-- `computeAutoPriority`: the nearby-count SQL query is the only fallible
step inside its `try`; its outcome is passed as an `Except` value. On any
query error the `catch` returns the fixed fallback `"medium"`; otherwise the
score is `nearbyCount * severityWeight category` mapped through the fixed
thresholds. -/
def computeAutoPriority (countResult : Except String Nat) (category : String) : String :=
  match countResult with
  | .error _ => "medium"
  | .ok nearbyCount => priorityOfScore (nearbyCount * severityWeight category)

/-! ## Report creation (source: `createReport` in the reports controller) -/

/-- The request-body fields of `createReport` that decide validation and
priority assignment. A field is `none` when absent from the JSON body. -/
structure CreateReportRequest where
  userId : Option String
  title : Option String
  category : Option String
  priority : Option String
deriving Repr, DecidableEq

/-- Outcome of the `createReport` handler: the HTTP status, the priority
persisted with the report (`none` when no report row was inserted), and
whether the automatic scorer branch (`finalPriority === 'auto'`) ran. -/
structure CreateReportResult where
  status : Nat
  storedPriority : Option String
  autoScored : Bool
deriving Repr, DecidableEq

/-- JavaScript truthiness of an optional string field: absent and `""` are falsy. -/
def truthy : Option String → Bool
  | none => false
  | some s => s ≠ ""

/-- The JS expression `field || default` on an optional string field. -/
def jsOr (o : Option String) (d : String) : String :=
  match o with
  | none => d
  | some s => if s = "" then d else s

/-- `createReport`: validation (`!userId || !title` ⇒ 400), user existence
check inside the transaction (⇒ 404 on failure), then
`finalPriority = priority || 'auto'`; if that equals `'auto'` the scorer runs
on `category || ''`, otherwise the caller's value is stored unchanged.
`userExists` is the outcome of the user lookup and `countResult` the outcome
of the scorer's nearby-count query. -/
def createReport (req : CreateReportRequest) (userExists : Bool)
    (countResult : Except String Nat) : CreateReportResult :=
  if ¬ truthy req.userId ∨ ¬ truthy req.title then
    { status := 400, storedPriority := none, autoScored := false }
  else if ¬ userExists then
    { status := 404, storedPriority := none, autoScored := false }
  else
    let finalPriority := jsOr req.priority "auto"
    if finalPriority = "auto" then
      { status := 201,
        storedPriority := some (computeAutoPriority countResult (jsOr req.category "")),
        autoScored := true }
    else
      { status := 201, storedPriority := some finalPriority, autoScored := false }

end JanSetu

namespace JanSetu

/-! ## Theorems: priority scoring -/

/-- C2: a report created with automatic scoring is assigned exactly
`priorityOfScore (nearbyCount * severityWeight category)`, and the fixed
thresholds map the boundary scores 3, 7, 8, 14, 15 to medium, medium, high,
high, critical respectively. -/
theorem createReport_auto_scoring_tier
    (req : CreateReportRequest) (n : Nat)
    (hu : truthy req.userId = true) (ht : truthy req.title = true)
    (hp : req.priority = some "auto") :
    (createReport req true (.ok n)).storedPriority
      = some (priorityOfScore (n * severityWeight (jsOr req.category ""))) ∧
    priorityOfScore 3 = "medium" ∧ priorityOfScore 7 = "medium" ∧
    priorityOfScore 8 = "high" ∧ priorityOfScore 14 = "high" ∧
    priorityOfScore 15 = "critical" := by
  refine ⟨?_, by decide, by decide, by decide, by decide, by decide⟩
  simp [createReport, hu, ht, hp, jsOr, computeAutoPriority]

theorem createReport_auto_scoring_tier_witness :
    (createReport ⟨some "u1", some "Pothole", some "Roads & Infrastructure", some "auto"⟩
        true (.ok 4)).storedPriority = some "high" := by
  have h := createReport_auto_scoring_tier
    ⟨some "u1", some "Pothole", some "Roads & Infrastructure", some "auto"⟩ 4
    (by decide) (by decide) rfl
  rw [h.1]; decide

/-- C4: if the nearby-count query fails for any reason, report creation
still succeeds (HTTP 201) and the report is persisted with tier `medium`. -/
theorem createReport_count_failure_fallback
    (req : CreateReportRequest) (e : String)
    (hu : truthy req.userId = true) (ht : truthy req.title = true)
    (hp : jsOr req.priority "auto" = "auto") :
    (createReport req true (.error e)).status = 201 ∧
    (createReport req true (.error e)).storedPriority = some "medium" := by
  simp [createReport, hu, ht, hp, computeAutoPriority]

theorem createReport_count_failure_fallback_witness :
    (createReport ⟨some "u1", some "Flood", some "Water Supply & Sewerage", some "auto"⟩
        true (.error "connection reset")).status = 201 ∧
    (createReport ⟨some "u1", some "Flood", some "Water Supply & Sewerage", some "auto"⟩
        true (.error "connection reset")).storedPriority = some "medium" :=
  createReport_count_failure_fallback _ _ (by decide) (by decide) (by decide)

/-- C7 counterexample: with the priority field entirely absent from the
request (`priority = none`), the scorer branch still runs — refuting the
claim that the scorer runs only when the caller supplies the explicit
`'auto'` sentinel. -/
theorem createReport_scorer_runs_without_auto_sentinel :
    (createReport ⟨some "u1", some "t", some "Traffic & Transport", none⟩
        true (.ok 5)).autoScored = true ∧
    (⟨some "u1", some "t", some "Traffic & Transport", none⟩ :
        CreateReportRequest).priority ≠ some "auto" := by
  exact ⟨by decide, by decide⟩

/-- C7 amended: for a valid request with an existing user, the scorer runs
iff the caller's priority is missing, empty, or the `'auto'` sentinel
(`priority || 'auto'` defaulting); any other explicit tier is stored
unchanged and bypasses the scorer entirely. -/
theorem createReport_auto_sentinel_iff
    (req : CreateReportRequest) (countResult : Except String Nat)
    (hu : truthy req.userId = true) (ht : truthy req.title = true) :
    ((createReport req true countResult).autoScored = true
      ↔ (req.priority = none ∨ req.priority = some "" ∨ req.priority = some "auto")) ∧
    (∀ p, req.priority = some p → p ≠ "" → p ≠ "auto" →
      (createReport req true countResult).storedPriority = some p ∧
      (createReport req true countResult).autoScored = false) := by
  constructor
  · cases hpr : req.priority with
    | none => simp [createReport, hu, ht, jsOr, hpr]
    | some p =>
      by_cases hempty : p = ""
      · subst hempty; simp [createReport, hu, ht, jsOr, hpr]
      · by_cases hauto : p = "auto"
        · subst hauto; simp [createReport, hu, ht, jsOr, hpr]
        · simp [createReport, hu, ht, jsOr, hpr, hempty, hauto]
  · intro p hpr hempty hauto
    simp [createReport, hu, ht, jsOr, hpr, hempty, hauto]

theorem createReport_auto_sentinel_iff_witness :
    (createReport ⟨some "u1", some "t", some "Roads & Infrastructure", some "high"⟩
        true (.ok 0)).storedPriority = some "high" ∧
    (createReport ⟨some "u1", some "t", some "Roads & Infrastructure", some "high"⟩
        true (.ok 0)).autoScored = false :=
  (createReport_auto_sentinel_iff
    ⟨some "u1", some "t", some "Roads & Infrastructure", some "high"⟩ (.ok 0)
    (by decide) (by decide)).2 "high" rfl (by decide) (by decide)

/-! ## The cache backing store and `RedisService` (source: the Redis service module) -/

/-- Modelled from the spec: glob-style pattern matching performed by the
external cache backing store (`SCAN ... MATCH pattern`), "a glob-style
pattern (prefix + wildcard)"; `*` matches any (possibly empty) substring,
other characters match literally, and the whole key must match. -/
def globMatchL : List Char → List Char → Bool
  | [], key => key.isEmpty
  | p :: ps, key =>
    if p = '*' then (key.tails).any (fun s => globMatchL ps s)
    else
      match key with
      | [] => false
      | k :: ks => (p = k) && globMatchL ps ks

/-- Modelled from the spec: whole-key glob match of `key` against `pattern`
(see `globMatchL`). -/
def globMatch (pattern key : String) : Bool :=
  globMatchL pattern.data key.data

/-- The cache: live entries (key/value pairs) plus the `isConnected`
availability flag of the Redis client. TTLs are not modelled; no claim
depends on expiry. -/
structure CacheState where
  entries : List (String × String)
  available : Bool
deriving Repr, DecidableEq

namespace RedisService

/-- `isAvailable()`: the client is connected. -/
def isAvailable (st : CacheState) : Bool := st.available

/-- `get(key)`: returns `null` with a warning when Redis is unavailable;
the client call is fallible (`clientThrows`), and the `catch` also returns
`null`; otherwise the stored value (or `null` when absent). -/
def get (st : CacheState) (clientThrows : Bool) (key : String) : Option String :=
  if ¬ isAvailable st then none
  else if clientThrows then none
  else ((st.entries.find? (fun e => e.1 = key)).map (fun e => e.2))

/-- `set(key, value, ttl)`: skipped (returns `false`) when unavailable or
when the client `setEx` throws; otherwise overwrites unconditionally and
returns `true`. -/
def set (st : CacheState) (clientThrows : Bool) (key value : String) :
    Bool × CacheState :=
  if ¬ isAvailable st then (false, st)
  else if clientThrows then (false, st)
  else (true, { st with entries := (key, value) :: st.entries.filter (fun e => e.1 ≠ key) })

/-- `del(keyOrKeys)`: skipped (returns `false`) when unavailable or when the
client throws; otherwise removes the listed keys and returns `true`. -/
def del (st : CacheState) (clientThrows : Bool) (keys : List String) :
    Bool × CacheState :=
  if ¬ isAvailable st then (false, st)
  else if clientThrows then (false, st)
  else (true, { st with entries := st.entries.filter (fun e => ¬ e.1 ∈ keys) })

/-- `scanKeys(pattern)`: `[]` when unavailable; the scan is fallible and the
`catch` also returns `[]`; otherwise all live keys matching the glob. -/
def scanKeys (st : CacheState) (clientThrows : Bool) (pattern : String) : List String :=
  if ¬ isAvailable st then []
  else if clientThrows then []
  else ((st.entries.filter (fun e => globMatch pattern e.1)).map (fun e => e.1))

/-- `deletePattern(pattern)`: skipped (returns `false`) when unavailable or
on a client error; otherwise scans and deletes the matching keys (deleting
only when some key matched) and returns `true`. -/
def deletePattern (st : CacheState) (clientThrows : Bool) (pattern : String) :
    Bool × CacheState :=
  if ¬ isAvailable st then (false, st)
  else if clientThrows then (false, st)
  else
    let keys := scanKeys st clientThrows pattern
    if keys.length > 0 then (true, (del st clientThrows keys).2) else (true, st)

/-- `invalidatePattern(pattern)`: scans and deletes matching keys, returning
how many were purged; its own `catch` (and `scanKeys` returning `[]` when
Redis is down) makes it return 0 instead of throwing. -/
def invalidatePattern (st : CacheState) (clientThrows : Bool) (pattern : String) :
    Nat × CacheState :=
  if clientThrows then (0, st)
  else
    let keys := scanKeys st clientThrows pattern
    if keys.length > 0 then (keys.length, (del st clientThrows keys).2) else (0, st)

end RedisService

/-- A cached read path (the shape shared by `getSocialPosts`,
`getPostComments`, `getUserReports`, ...): try the cache; on a hit answer
200 from the cache, on a miss query the primary store (assumed reachable),
fill the cache, and answer 200 from the store. -/
def cachedRead (st : CacheState) (clientThrows : Bool) (key freshValue : String) :
    (Nat × Bool) × CacheState :=
  match RedisService.get st clientThrows key with
  | some _ => ((200, true), st)
  | none =>
      let filled := RedisService.set st clientThrows key freshValue
      ((200, false), filled.2)

/-- C5: when the backing store is unavailable or any client operation
throws, every Get returns `none`, Set/Delete/pattern-purge leave the cache
unchanged and return `false` (their return types are exception-free, so
nothing escapes to the caller), and a cached read path still answers 200 by
falling through to the primary store. -/
theorem cache_down_degrades_to_miss
    (st : CacheState) (clientThrows : Bool)
    (key value pattern freshValue : String) (keys : List String)
    (h : st.available = false ∨ clientThrows = true) :
    RedisService.get st clientThrows key = none ∧
    RedisService.set st clientThrows key value = (false, st) ∧
    RedisService.del st clientThrows keys = (false, st) ∧
    RedisService.deletePattern st clientThrows pattern = (false, st) ∧
    RedisService.scanKeys st clientThrows pattern = [] ∧
    (RedisService.invalidatePattern st clientThrows pattern).2 = st ∧
    (cachedRead st clientThrows key freshValue).1.1 = 200 := by
  rcases h with h | h <;>
    simp [RedisService.get, RedisService.set, RedisService.del,
      RedisService.deletePattern, RedisService.scanKeys,
      RedisService.invalidatePattern, RedisService.isAvailable, cachedRead, h]

theorem cache_down_degrades_to_miss_witness :
    RedisService.get ⟨[("reports:user_reports:u1", "v")], false⟩ false "reports:user_reports:u1" = none ∧
    RedisService.set ⟨[("reports:user_reports:u1", "v")], false⟩ false "reports:user_reports:u1" "w"
      = (false, ⟨[("reports:user_reports:u1", "v")], false⟩) ∧
    RedisService.del ⟨[("reports:user_reports:u1", "v")], false⟩ false ["k"]
      = (false, ⟨[("reports:user_reports:u1", "v")], false⟩) ∧
    RedisService.deletePattern ⟨[("reports:user_reports:u1", "v")], false⟩ false "reports:*"
      = (false, ⟨[("reports:user_reports:u1", "v")], false⟩) ∧
    RedisService.scanKeys ⟨[("reports:user_reports:u1", "v")], false⟩ false "reports:*" = [] ∧
    (RedisService.invalidatePattern ⟨[("reports:user_reports:u1", "v")], false⟩ false "reports:*").2
      = ⟨[("reports:user_reports:u1", "v")], false⟩ ∧
    (cachedRead ⟨[("reports:user_reports:u1", "v")], false⟩ false "reports:user_reports:u1" "fresh").1.1 = 200 :=
  cache_down_degrades_to_miss ⟨[("reports:user_reports:u1", "v")], false⟩ false
    "reports:user_reports:u1" "w" "reports:*" "fresh" ["k"] (Or.inl rfl)

/-! ## Cache keys (sources: `cacheReports` in the Redis service,
`getSocialPosts` in the social controller) -/

/-- `cacheReports`/`getCachedReports` prefix every key they store or look up
with `reports:`. -/
def cacheReportsKey (key : String) : String := "reports:" ++ key

/-- Join components with `:` separators (the shape of the template-literal
cache keys). -/
def joinColon : List String → String
  | [] => ""
  | [c] => c
  | c :: c2 :: rest => c ++ ":" ++ joinColon (c2 :: rest)

/-- The query parameters of `getSocialPosts` that enter its cache key.
`none` models an absent query parameter. -/
structure SocialPostsQuery where
  tab : Option String
  limit : Option String
  offset : Option String
  userId : Option String
  latitude : Option String
  longitude : Option String
  radius : Option String
  category : Option String
  priority : Option String
deriving Repr, DecidableEq

/-- The ten `:`-separated components of the `getSocialPosts` cache key:
`tab`, `limit`, `offset` and `radius` take destructuring defaults when
absent, while `userId`, `latitude`, `longitude`, `category` and `priority`
are normalized with `||` (so absent and `""` coincide with the default). -/
def spComponents (q : SocialPostsQuery) : List String :=
  ["social_posts",
   q.tab.getD "all",
   q.limit.getD "20",
   q.offset.getD "0",
   jsOr q.userId "guest",
   jsOr q.latitude "none",
   jsOr q.longitude "none",
   q.radius.getD "10",
   jsOr q.category "all",
   jsOr q.priority "all"]

/-- The cache key built by `getSocialPosts` (the template literal
`social_posts:${tab}:${limit}:${offset}:...`). -/
def getSocialPostsCacheKey (q : SocialPostsQuery) : String :=
  joinColon (spComponents q)

/-- The key under which `getSocialPosts` actually stores its response:
it calls `cacheReports`, which adds the `reports:` prefix. -/
def getSocialPostsStoredKey (q : SocialPostsQuery) : String :=
  cacheReportsKey (getSocialPostsCacheKey q)

/-- The category filter of `getSocialPosts`: the clause
`AND r.category = $n` is appended only when the request's category
parameter is truthy, so an absent category means no filtering while an
explicit value (including the literal string `"all"`) filters by equality. -/
def socialPostsCategoryClause (q : SocialPostsQuery) (postCategory : String) : Bool :=
  match q.category with
  | none => true
  | some c => if c = "" then true else postCategory = c

/-- A `getSocialPosts` request with every optional parameter absent. -/
def spDefaultQuery : SocialPostsQuery :=
  ⟨none, none, none, none, none, none, none, none, none⟩

/-- The cache-invalidation patterns `voteOnPost` applies after its
transaction (`invalidatePattern('social_posts:*')`); `createSocialPost` and
`trackPostView` apply the same list, and `addComment` additionally purges
`social_comments:*`. -/
def voteOnPostInvalidationPatterns : List String := ["social_posts:*"]

/-- Run a mutation's invalidation patterns against the cache. -/
def applyInvalidations (st : CacheState) (patterns : List String) : CacheState :=
  patterns.foldl (fun s p => (RedisService.invalidatePattern s false p).2) st

/-- C1: evaluating the code at the failing input. `getSocialPosts` stores
its response under `reports:social_posts:...` (the `cacheReports` prefix),
but the social mutations purge the pattern `social_posts:*`, which does not
match that key — so after `voteOnPost`'s invalidation step the stale entry
is still live (while the matcher does work for a correctly prefixed
pattern such as `reports:*`). -/
theorem voteOnPost_invalidation_misses_social_posts_cache :
    getSocialPostsStoredKey spDefaultQuery
      = "reports:social_posts:all:20:0:guest:none:none:10:all:all" ∧
    globMatch "social_posts:*" (getSocialPostsStoredKey spDefaultQuery) = false ∧
    globMatch "reports:*" (getSocialPostsStoredKey spDefaultQuery) = true ∧
    (applyInvalidations
        ⟨[(getSocialPostsStoredKey spDefaultQuery, "cachedPosts")], true⟩
        voteOnPostInvalidationPatterns).entries
      = [(getSocialPostsStoredKey spDefaultQuery, "cachedPosts")] := by
  refine ⟨rfl, ?_, ?_, ?_⟩ <;> decide

/-! ### Key injectivity infrastructure -/

/-- A string containing no `:` separator character. -/
def sepFree (s : String) : Prop := (':' : Char) ∉ s.data

instance (s : String) : Decidable (sepFree s) := by unfold sepFree; infer_instance

/-- Character-level counterpart of `joinColon`. -/
def joinColonL : List (List Char) → List Char
  | [] => []
  | [c] => c
  | c :: c2 :: rest => c ++ ':' :: joinColonL (c2 :: rest)

theorem string_data_injective : Function.Injective String.data := fun a b h => by
  cases a; cases b; exact congrArg String.mk h

theorem joinColon_data (l : List String) :
    (joinColon l).data = joinColonL (l.map String.data) := by
  match l with
  | [] => rfl
  | [c] => rfl
  | c :: c2 :: rest =>
    show ((c ++ ":" ++ joinColon (c2 :: rest))).data = _
    rw [String.data_append, String.data_append]
    rw [joinColon_data (c2 :: rest)]
    simp [joinColonL]

theorem append_colon_inj : ∀ (a b r s : List Char),
    (':' : Char) ∉ a → (':' : Char) ∉ b →
    a ++ ':' :: r = b ++ ':' :: s → a = b ∧ r = s
  | [], [], r, s, _, _, h => by simpa using h
  | [], x :: xs, r, s, _, hb, h => by
      simp only [List.nil_append, List.cons_append, List.cons.injEq] at h
      exact absurd (by rw [← h.1]; exact List.mem_cons_self _ _) hb
  | y :: ys, [], r, s, ha, _, h => by
      simp only [List.nil_append, List.cons_append, List.cons.injEq] at h
      exact absurd (by rw [h.1]; exact List.mem_cons_self _ _) ha
  | y :: ys, x :: xs, r, s, ha, hb, h => by
      simp only [List.cons_append, List.cons.injEq] at h
      obtain ⟨hyx, htail⟩ := h
      obtain ⟨h1, h2⟩ := append_colon_inj ys xs r s
        (fun hm => ha (List.mem_cons_of_mem _ hm))
        (fun hm => hb (List.mem_cons_of_mem _ hm)) htail
      exact ⟨by rw [hyx, h1], h2⟩

theorem joinColonL_inj : ∀ (l1 l2 : List (List Char)),
    l1.length = l2.length →
    (∀ c ∈ l1, (':' : Char) ∉ c) → (∀ c ∈ l2, (':' : Char) ∉ c) →
    joinColonL l1 = joinColonL l2 → l1 = l2
  | [], [], _, _, _, _ => rfl
  | [], _ :: _, hlen, _, _, _ => by simp at hlen
  | _ :: _, [], hlen, _, _, _ => by simp at hlen
  | [c1], [c2], _, _, _, heq => by
      simp only [joinColonL] at heq; rw [heq]
  | [c1], c2 :: d2 :: u2, hlen, _, _, _ => by simp at hlen
  | c1 :: d1 :: u1, [c2], hlen, _, _, _ => by simp at hlen
  | c1 :: d1 :: u1, c2 :: d2 :: u2, hlen, hf1, hf2, heq => by
      simp only [joinColonL] at heq
      obtain ⟨h1, h2⟩ := append_colon_inj c1 c2 _ _
        (hf1 c1 (List.mem_cons_self _ _)) (hf2 c2 (List.mem_cons_self _ _)) heq
      have := joinColonL_inj (d1 :: u1) (d2 :: u2)
        (by simpa using hlen)
        (fun c hc => hf1 c (List.mem_cons_of_mem _ hc))
        (fun c hc => hf2 c (List.mem_cons_of_mem _ hc)) h2
      rw [h1, this]

/-- `joinColon` is injective on equal-length lists of separator-free
components. -/
theorem joinColon_inj (l1 l2 : List String) (hlen : l1.length = l2.length)
    (h1 : ∀ s ∈ l1, sepFree s) (h2 : ∀ s ∈ l2, sepFree s)
    (h : joinColon l1 = joinColon l2) : l1 = l2 := by
  have hd : joinColonL (l1.map String.data) = joinColonL (l2.map String.data) := by
    rw [← joinColon_data, ← joinColon_data, h]
  have hmap := joinColonL_inj (l1.map String.data) (l2.map String.data)
    (by simpa using hlen)
    (by intro c hc; obtain ⟨s, hs, rfl⟩ := List.mem_map.mp hc; exact h1 s hs)
    (by intro c hc; obtain ⟨s, hs, rfl⟩ := List.mem_map.mp hc; exact h2 s hs) hd
  exact List.map_injective_iff.mpr string_data_injective hmap

/-- C6 counterexample: a request with no category parameter and the same
request with category explicitly `"all"` build the identical cache key,
yet their query filters differ — the first returns posts of every
category, the second only posts whose category is the literal string
`"all"` — so two requests whose responses can differ share a key. -/
theorem socialPosts_key_collision_missing_vs_explicit_all :
    getSocialPostsCacheKey spDefaultQuery
      = getSocialPostsCacheKey { spDefaultQuery with category := some "all" } ∧
    socialPostsCategoryClause spDefaultQuery "Roads & Infrastructure" = true ∧
    socialPostsCategoryClause { spDefaultQuery with category := some "all" }
      "Roads & Infrastructure" = false := by
  refine ⟨rfl, rfl, ?_⟩; decide

/-- C6 amended: the `getSocialPosts` key builder is deterministic and, at
the level of its normalized components, collision-free: for parameter
values containing no `:` separator, two requests build the identical key
string iff their normalized component tuples coincide. The normalization
collapses a missing optional filter, the empty string, and (for
category/priority) the explicit value `"all"` to the same component, even
though the query treats an explicit `"all"` as a literal equality filter —
so exactly those identified requests share a cache entry. -/
theorem getSocialPostsCacheKey_eq_iff
    (q1 q2 : SocialPostsQuery)
    (h1 : ∀ s ∈ spComponents q1, sepFree s)
    (h2 : ∀ s ∈ spComponents q2, sepFree s) :
    getSocialPostsCacheKey q1 = getSocialPostsCacheKey q2
      ↔ spComponents q1 = spComponents q2 := by
  constructor
  · intro h
    exact joinColon_inj _ _ rfl h1 h2 h
  · intro h
    unfold getSocialPostsCacheKey
    rw [h]

theorem getSocialPostsCacheKey_eq_iff_witness :
    getSocialPostsCacheKey spDefaultQuery
      ≠ getSocialPostsCacheKey { spDefaultQuery with offset := some "20" } := by
  intro h
  have hcomp := (getSocialPostsCacheKey_eq_iff spDefaultQuery
    { spDefaultQuery with offset := some "20" } (by decide) (by decide)).mp h
  exact absurd hcomp (by decide)

/-! ## Transactional mutation handlers (sources: `resolveReport`,
`createSocialPost`, `deleteAdmin`, `voteOnPost`) -/

/-- A report row, restricted to the fields the modelled handlers read. -/
structure ReportRow where
  id : String
  userId : String
  isResolved : Bool
deriving Repr, DecidableEq

/-- An admin row, restricted to the fields the modelled handlers read. -/
structure AdminRow where
  id : String
  role : String
  isActive : Bool
deriving Repr, DecidableEq

/-- The events whose relative order the temporal claims are about:
transaction boundaries (`BEGIN`/`COMMIT`/`ROLLBACK` issued by the
`transaction` wrapper) and cache invalidation operations. SQL statements
inside the transaction are not recorded. -/
inductive DbEvent
  | begin
  | commit
  | rollback
  | cacheDelete (key : String)
  | cachePurge (pattern : String)
deriving Repr, DecidableEq

/-- Is the event a cache invalidation (single-key delete or pattern purge)? -/
def isCacheInvalidation : DbEvent → Bool
  | .cacheDelete _ => true
  | .cachePurge _ => true
  | _ => false

/-- The prefix of a trace strictly before the transaction commit. -/
def beforeCommit (t : List DbEvent) : List DbEvent :=
  t.takeWhile (fun e => decide (e ≠ DbEvent.commit))

/-- JavaScript's `toLowerCase()` on the (ASCII) role strings compared by
the handlers: character-wise lowering of the string's data. -/
def lowerString (s : String) : String := ⟨s.data.map Char.toLower⟩

/-- The persistent state touched by `resolveReport`. -/
structure ResolveDb where
  reports : List ReportRow
  admins : List AdminRow
deriving Repr, DecidableEq

/-- Outcome of `resolveReport`: HTTP status, resulting state, and the
ordered trace of transaction/cache events. -/
structure ResolveReportResult where
  status : Nat
  db : ResolveDb
  events : List DbEvent
deriving Repr, DecidableEq

/-- `resolveReport`: request validation, then a `transaction` whose
callback verifies the admin (active, role matches), loads the report,
rejects an already-resolved one, marks it resolved — and then, still inside
the callback (before `COMMIT`), deletes the `report:<id>` cache key and
purges the four list patterns `reports:*`, `nearby:*`, `user_reports:*`,
`social_posts:*`. After the transaction returns, `invalidateAdminReports()`
purges `reports:admin_reports:*`. Photo upload, the user counter update and
the resolved-notification do not affect state or events modelled here;
`photoCount` carries the max-2-photos validation. -/
def resolveReport (db : ResolveDb) (reportId adminId adminRole : String)
    (photoCount : Nat) : ResolveReportResult :=
  if reportId = "" then ⟨400, db, []⟩
  else if adminId = "" ∨ adminRole = "" then ⟨400, db, []⟩
  else if ¬ (lowerString adminRole ∈ ["viewer", "admin", "super_admin"]) then ⟨403, db, []⟩
  else if photoCount > 2 then ⟨400, db, []⟩
  else
    match db.admins.find? (fun a => a.id == adminId && a.isActive) with
    | none => ⟨403, db, [.begin, .rollback]⟩
    | some admin =>
      if lowerString admin.role ≠ lowerString adminRole then ⟨403, db, [.begin, .rollback]⟩
      else
        match db.reports.find? (fun r => r.id == reportId) with
        | none => ⟨404, db, [.begin, .rollback]⟩
        | some report =>
          if report.isResolved then ⟨400, db, [.begin, .rollback]⟩
          else
            ⟨200,
             { db with reports :=
                (db.reports.map
                  (fun r => if r.id = reportId then { r with isResolved := true } else r)) },
             [.begin,
              .cacheDelete ("report:" ++ reportId),
              .cachePurge "reports:*",
              .cachePurge "nearby:*",
              .cachePurge "user_reports:*",
              .cachePurge "social_posts:*",
              .commit,
              .cachePurge "reports:admin_reports:*"]⟩

/-- C3: evaluating `resolveReport` at a concrete happy-path input shows its
cache invalidation running between `BEGIN` and `COMMIT` — the per-report
cache delete and all four list-pattern purges occur strictly before the
transaction commits, contradicting the after-commit-only ordering. -/
theorem resolveReport_invalidates_before_commit :
    (resolveReport ⟨[⟨"r1", "u1", false⟩], [⟨"a1", "admin", true⟩]⟩
        "r1" "a1" "admin" 0).status = 200 ∧
    DbEvent.commit ∈ (resolveReport ⟨[⟨"r1", "u1", false⟩], [⟨"a1", "admin", true⟩]⟩
        "r1" "a1" "admin" 0).events ∧
    ((beforeCommit (resolveReport ⟨[⟨"r1", "u1", false⟩], [⟨"a1", "admin", true⟩]⟩
        "r1" "a1" "admin" 0).events).any isCacheInvalidation) = true := by
  refine ⟨?_, ?_, ?_⟩ <;> decide

/-- A social post row, restricted to the fields `createSocialPost` reads. -/
structure SocialPostRow where
  reportId : String
  userId : String
deriving Repr, DecidableEq

/-- The persistent state touched by `createSocialPost`. -/
structure SocialDb where
  reports : List ReportRow
  socialPosts : List SocialPostRow
deriving Repr, DecidableEq

/-- Outcome of `createSocialPost`: HTTP status, resulting state, and the
invalidation patterns purged after the transaction. -/
structure CreateSocialPostResult where
  status : Nat
  db : SocialDb
  invalidations : List String
deriving Repr, DecidableEq

/-- `createSocialPost`: validation (missing report id ⇒ 400, missing user
⇒ 401); inside the transaction, the report must exist and belong to the
user (⇒ 404, thrown, rolled back), and a pre-existing social post for the
report throws `'Social post already exists for this report'`, which rolls
the transaction back and is mapped to HTTP 400; on success the post is
inserted, the transaction commits, and `social_posts:*` is purged. -/
def createSocialPost (db : SocialDb) (reportId userId : Option String) :
    CreateSocialPostResult :=
  if ¬ truthy reportId then ⟨400, db, []⟩
  else if ¬ truthy userId then ⟨401, db, []⟩
  else
    let rid := reportId.getD ""
    let uid := userId.getD ""
    match db.reports.find? (fun r => r.id == rid && r.userId == uid) with
    | none => ⟨404, db, []⟩
    | some _ =>
      if (db.socialPosts.filter (fun p => p.reportId == rid)).length > 0 then
        ⟨400, db, []⟩
      else
        ⟨201, { db with socialPosts := db.socialPosts ++ [⟨rid, uid⟩] },
          ["social_posts:*"]⟩

/-- C8 counterexample: both named conflict mutations answer HTTP 400, not
409 — creating a duplicate social post for report `r1` and re-resolving the
already-resolved report `r1` each return status 400. -/
theorem conflict_mutations_return_400_not_409 :
    (createSocialPost ⟨[⟨"r1", "u1", false⟩], [⟨"r1", "u1"⟩]⟩
        (some "r1") (some "u1")).status = 400 ∧
    (resolveReport ⟨[⟨"r1", "u1", true⟩], [⟨"a1", "admin", true⟩]⟩
        "r1" "a1" "admin" 0).status = 400 ∧
    (400 : Nat) ≠ 409 := by
  refine ⟨?_, ?_, ?_⟩ <;> decide

/-- C8 amended: on a conflict mutation (duplicate social post for a report,
or resolving an already-resolved report) the mutation aborts with HTTP 400
(not 409), the transaction rolls back so the persistent state is unchanged,
and no cache invalidation fires. -/
theorem conflict_aborts_rolls_back_without_invalidation
    (db1 : SocialDb) (rid uid : String) (hrid : rid ≠ "") (huid : uid ≠ "")
    (howned : (db1.reports.find? (fun r => r.id == rid && r.userId == uid)).isSome)
    (hdup : (db1.socialPosts.filter (fun p => p.reportId == rid)).length > 0)
    (db2 : ResolveDb) (rid2 aid role : String) (adm : AdminRow) (rep : ReportRow)
    (hrid2 : rid2 ≠ "") (haid : aid ≠ "") (hrole0 : role ≠ "")
    (hvalid : lowerString role ∈ ["viewer", "admin", "super_admin"])
    (hadmin : db2.admins.find? (fun a => a.id == aid && a.isActive) = some adm)
    (hrolematch : lowerString adm.role = lowerString role)
    (hreport : db2.reports.find? (fun r => r.id == rid2) = some rep)
    (hres : rep.isResolved = true) :
    createSocialPost db1 (some rid) (some uid) = ⟨400, db1, []⟩ ∧
    resolveReport db2 rid2 aid role 0 = ⟨400, db2, [.begin, .rollback]⟩ ∧
    ((resolveReport db2 rid2 aid role 0).events.any isCacheInvalidation) = false := by
  obtain ⟨r, hr⟩ := Option.isSome_iff_exists.mp howned
  refine ⟨?_, ?_, ?_⟩
  · simp [createSocialPost, truthy, hrid, huid, hr, hdup]
  · simp [resolveReport, hrid2, haid, hrole0, hvalid, hadmin, hrolematch, hreport, hres]
  · simp [resolveReport, hrid2, haid, hrole0, hvalid, hadmin, hrolematch, hreport, hres,
      isCacheInvalidation]

theorem conflict_aborts_rolls_back_without_invalidation_witness :
    createSocialPost ⟨[⟨"r1", "u1", false⟩], [⟨"r1", "u1"⟩]⟩ (some "r1") (some "u1")
      = ⟨400, ⟨[⟨"r1", "u1", false⟩], [⟨"r1", "u1"⟩]⟩, []⟩ ∧
    resolveReport ⟨[⟨"r1", "u1", true⟩], [⟨"a1", "admin", true⟩]⟩ "r1" "a1" "admin" 0
      = ⟨400, ⟨[⟨"r1", "u1", true⟩], [⟨"a1", "admin", true⟩]⟩, [.begin, .rollback]⟩ ∧
    ((resolveReport ⟨[⟨"r1", "u1", true⟩], [⟨"a1", "admin", true⟩]⟩
        "r1" "a1" "admin" 0).events.any isCacheInvalidation) = false :=
  conflict_aborts_rolls_back_without_invalidation
    ⟨[⟨"r1", "u1", false⟩], [⟨"r1", "u1"⟩]⟩ "r1" "u1" (by decide) (by decide)
    (by decide) (by decide)
    ⟨[⟨"r1", "u1", true⟩], [⟨"a1", "admin", true⟩]⟩ "r1" "a1" "admin"
    ⟨"a1", "admin", true⟩ ⟨"r1", "u1", true⟩
    (by decide) (by decide) (by decide) (by decide)
    (by decide) (by decide) (by decide) (by decide)

/-! ## Admin deletion (source: `deleteAdmin` in the admin controller) -/

/-- The transaction's count query: active admins whose role is exactly
`'super_admin'` and whose id differs from the one being deleted. -/
def activeSuperAdminsOther (admins : List AdminRow) (adminId : String) : Nat :=
  (admins.filter (fun a => a.role == "super_admin" && a.isActive && a.id != adminId)).length

/-- Outcome of `deleteAdmin`: HTTP status, response message, resulting
admins table. -/
structure DeleteAdminResult where
  status : Nat
  message : String
  admins : List AdminRow
deriving Repr, DecidableEq

/-- `deleteAdmin`: only a super admin may delete (403), the admin id is
required (400), self-deletion is rejected (400); inside the transaction the
admin must exist (else 400 `'Admin not found'`) and be active (else 400);
deleting the last active super admin throws
`'Cannot delete the last active super admin'` (rolled back, mapped to 400);
otherwise the admin is soft-deleted (`is_active = false`). -/
def deleteAdmin (admins : List AdminRow) (requesterRole requesterId adminId : String) :
    DeleteAdminResult :=
  if lowerString requesterRole ≠ "super_admin" then
    ⟨403, "Only super admins can delete admins", admins⟩
  else if adminId = "" then ⟨400, "Admin ID is required", admins⟩
  else if adminId = requesterId then ⟨400, "Cannot delete your own admin account", admins⟩
  else
    match admins.find? (fun a => a.id == adminId) with
    | none => ⟨400, "Admin not found", admins⟩
    | some adminToDelete =>
      if ¬ adminToDelete.isActive then ⟨400, "Admin is already inactive", admins⟩
      else if lowerString adminToDelete.role = "super_admin" ∧
          activeSuperAdminsOther admins adminId = 0 then
        ⟨400, "Cannot delete the last active super admin", admins⟩
      else
        ⟨200, "Admin deleted successfully",
          admins.map (fun a => if a.id = adminId then { a with isActive := false } else a)⟩

/-- There is at least one active admin with role exactly `'super_admin'`. -/
def hasActiveSuperAdmin (admins : List AdminRow) : Bool :=
  admins.any (fun a => a.role == "super_admin" && a.isActive)

/-- The arguments of one `deleteAdmin` invocation. -/
structure DeleteAdminCall where
  requesterRole : String
  requesterId : String
  adminId : String
deriving Repr, DecidableEq

/-- Run a sequence of `deleteAdmin` invocations. -/
def runDeleteAdmins (admins : List AdminRow) : List DeleteAdminCall → List AdminRow
  | [] => admins
  | c :: cs => runDeleteAdmins (deleteAdmin admins c.requesterRole c.requesterId c.adminId).admins cs

/-- `deleteAdmin` either leaves the table unchanged or (when every check
passed) soft-deletes exactly the rows with the given id — and in the latter
case the found admin was active and the last-super-admin guard did not
fire. -/
theorem deleteAdmin_admins_cases (admins : List AdminRow) (rr ri aid : String) :
    (deleteAdmin admins rr ri aid).admins = admins ∨
    ((deleteAdmin admins rr ri aid).admins
        = admins.map (fun a => if a.id = aid then { a with isActive := false } else a) ∧
      ∃ adm, admins.find? (fun a => a.id == aid) = some adm ∧ adm.isActive = true ∧
        ¬ (lowerString adm.role = "super_admin" ∧ activeSuperAdminsOther admins aid = 0)) := by
  unfold deleteAdmin
  split
  · exact Or.inl rfl
  split
  · exact Or.inl rfl
  split
  · exact Or.inl rfl
  split
  · exact Or.inl rfl
  next adm hfind =>
    split
    · exact Or.inl rfl
    next hact =>
      split
      · exact Or.inl rfl
      next hguard =>
        exact Or.inr ⟨rfl, adm, hfind, by simpa using hact, hguard⟩

/-- `deleteAdmin` never changes the ids present in the table. -/
theorem deleteAdmin_id_map (admins : List AdminRow) (rr ri aid : String) :
    (deleteAdmin admins rr ri aid).admins.map (fun a => a.id)
      = admins.map (fun a => a.id) := by
  rcases deleteAdmin_admins_cases admins rr ri aid with heq | ⟨heq, _⟩ <;> rw [heq]
  rw [List.map_map]
  refine List.map_congr_left ?_
  intro a _
  by_cases h : a.id = aid <;> simp [Function.comp, h]

/-- A single `deleteAdmin` preserves the presence of an active super admin
(assuming admin ids are unique, as the primary key guarantees). -/
theorem deleteAdmin_preserves_active_super
    (admins : List AdminRow) (rr ri aid : String)
    (hnodup : (admins.map (fun a => a.id)).Nodup)
    (h : hasActiveSuperAdmin admins = true) :
    hasActiveSuperAdmin (deleteAdmin admins rr ri aid).admins = true := by
  obtain ⟨w, hwmem, hwprop⟩ := List.any_eq_true.mp h
  have hwrole : w.role = "super_admin" := by
    have := (Bool.and_eq_true _ _).mp hwprop |>.1
    simpa using this
  have hwact : w.isActive = true := (Bool.and_eq_true _ _).mp hwprop |>.2
  rcases deleteAdmin_admins_cases admins rr ri aid with heq | ⟨heq, adm, hfind, hact, hguard⟩
  · rw [heq]; exact h
  · rw [heq]
    by_cases hwid : w.id = aid
    · have hadmmem := List.mem_of_find?_eq_some hfind
      have hadmid : adm.id = aid := by simpa using List.find?_some hfind
      have hadm_eq : adm = w :=
        List.inj_on_of_nodup_map hnodup hadmmem hwmem (by rw [hadmid, hwid])
      have hlow : lowerString adm.role = "super_admin" := by
        rw [hadm_eq, hwrole]; decide
      have hcount : activeSuperAdminsOther admins aid ≠ 0 := fun h0 => hguard ⟨hlow, h0⟩
      have hpos : 0 < (admins.filter
          (fun a => a.role == "super_admin" && a.isActive && a.id != aid)).length :=
        Nat.pos_of_ne_zero hcount
      obtain ⟨z, hzmem⟩ := List.exists_mem_of_length_pos hpos
      have hz := List.mem_filter.mp hzmem
      have hzrole : z.role = "super_admin" := by
        have := ((Bool.and_eq_true _ _).mp ((Bool.and_eq_true _ _).mp hz.2).1).1
        simpa using this
      have hzact : z.isActive = true :=
        ((Bool.and_eq_true _ _).mp ((Bool.and_eq_true _ _).mp hz.2).1).2
      have hzid : z.id ≠ aid := by
        have := ((Bool.and_eq_true _ _).mp hz.2).2
        simpa using this
      refine List.any_eq_true.mpr ⟨_, List.mem_map.mpr ⟨z, hz.1, rfl⟩, ?_⟩
      simp [hzid, hzrole, hzact]
    · refine List.any_eq_true.mpr ⟨_, List.mem_map.mpr ⟨w, hwmem, rfl⟩, ?_⟩
      simp [hwid, hwrole, hwact]

/-- C9: `deleteAdmin` preserves "at least one active super admin". With
unique admin ids: (1) in a state whose only active `super_admin` row is the
targeted admin, a legitimate delete request fails with HTTP 400
`'Cannot delete the last active super admin'` and leaves the table
unchanged (so that admin remains active); (2) no sequence of `deleteAdmin`
invocations starting from a state with an active super admin ever reaches a
state with none. -/
theorem deleteAdmin_last_super_admin_protected :
    (∀ (admins : List AdminRow) (rr ri target : String) (w : AdminRow),
      (admins.map (fun a => a.id)).Nodup →
      lowerString rr = "super_admin" → target ≠ "" → target ≠ ri →
      w ∈ admins → w.id = target → w.role = "super_admin" → w.isActive = true →
      activeSuperAdminsOther admins target = 0 →
      deleteAdmin admins rr ri target
        = ⟨400, "Cannot delete the last active super admin", admins⟩) ∧
    (∀ (admins : List AdminRow) (calls : List DeleteAdminCall),
      (admins.map (fun a => a.id)).Nodup →
      hasActiveSuperAdmin admins = true →
      hasActiveSuperAdmin (runDeleteAdmins admins calls) = true) := by
  constructor
  · intro admins rr ri target w hnodup hrr htarget hself hwmem hwid hwrole hwact hcount
    have hsome : (admins.find? (fun a => a.id == target)).isSome :=
      List.find?_isSome.mpr ⟨w, hwmem, by simp [hwid]⟩
    obtain ⟨adm, hfind⟩ := Option.isSome_iff_exists.mp hsome
    have hadmmem := List.mem_of_find?_eq_some hfind
    have hadmid : adm.id = target := by simpa using List.find?_some hfind
    have hadm_eq : adm = w :=
      List.inj_on_of_nodup_map hnodup hadmmem hwmem (by rw [hadmid, hwid])
    have hls : lowerString "super_admin" = "super_admin" := by decide
    simp [deleteAdmin, hrr, htarget, hself, hfind, hadm_eq, hwact, hwrole, hcount, hls]
  · intro admins calls hnodup h
    induction calls generalizing admins with
    | nil => exact h
    | cons c cs ih =>
      exact ih _ (by rw [deleteAdmin_id_map]; exact hnodup)
        (deleteAdmin_preserves_active_super _ _ _ _ hnodup h)

theorem deleteAdmin_last_super_admin_protected_witness :
    deleteAdmin [⟨"a1", "super_admin", true⟩, ⟨"a2", "admin", true⟩] "super_admin" "a2" "a1"
      = ⟨400, "Cannot delete the last active super admin",
         [⟨"a1", "super_admin", true⟩, ⟨"a2", "admin", true⟩]⟩ ∧
    hasActiveSuperAdmin (runDeleteAdmins [⟨"a1", "super_admin", true⟩, ⟨"a2", "admin", true⟩]
      [⟨"super_admin", "a1", "a2"⟩, ⟨"super_admin", "a2", "a1"⟩]) = true :=
  ⟨deleteAdmin_last_super_admin_protected.1
      [⟨"a1", "super_admin", true⟩, ⟨"a2", "admin", true⟩] "super_admin" "a2" "a1"
      ⟨"a1", "super_admin", true⟩ (by decide) (by decide) (by decide) (by decide)
      (by decide) rfl rfl rfl (by decide),
   deleteAdmin_last_super_admin_protected.2
      [⟨"a1", "super_admin", true⟩, ⟨"a2", "admin", true⟩]
      [⟨"super_admin", "a1", "a2"⟩, ⟨"super_admin", "a2", "a1"⟩] (by decide) (by decide)⟩

/-! ## Voting (source: `voteOnPost` in the social controller) -/

/-- The per-case vote-count deltas and action label of `voteOnPost`'s
transaction: toggling the same vote off, switching an opposite vote, or
adding a first vote. Returns `(upvoteChange, downvoteChange, actionTaken)`. -/
def voteChanges (existing : Option String) (voteType : String) :
    Int × Int × String :=
  match existing with
  | some cur =>
    if cur = voteType then
      if voteType = "upvote" then (-1, 0, "removed_upvote")
      else (0, -1, "removed_downvote")
    else
      if voteType = "upvote" then (1, -1, "changed_to_upvote")
      else (-1, 1, "changed_to_downvote")
  | none =>
    if voteType = "upvote" then (1, 0, "added_upvote")
    else (0, 1, "added_downvote")

/-- The vote-related columns of a social post. -/
structure PostCounts where
  upvotes : Int
  downvotes : Int
  totalScore : Int
deriving Repr, DecidableEq

/-- The `UPDATE social_posts SET upvotes = upvotes + $1, downvotes =
downvotes + $2, total_score = (upvotes + $1) - (downvotes + $2)` statement:
every right-hand side reads the pre-update row, so the stored total is the
new upvotes minus the new downvotes. -/
def applyVoteUpdate (c : PostCounts) (u d : Int) : PostCounts :=
  ⟨c.upvotes + u, c.downvotes + d, (c.upvotes + u) - (c.downvotes + d)⟩

/-- The state change of `voteOnPost`'s transaction on the voted post, given
the voter's existing vote row: the counts after the update plus the action
label. -/
def voteOnPost (c : PostCounts) (existing : Option String) (voteType : String) :
    PostCounts × String :=
  let ch := voteChanges existing voteType
  (applyVoteUpdate c ch.1 ch.2.1, ch.2.2)

/-- C10: a single `voteOnPost` applies exactly the documented per-case
deltas (each in −1/0/+1) to `upvotes`/`downvotes`, and the stored
`total_score` equals the new upvotes minus the new downvotes whenever the
equation held before the operation. -/
theorem voteOnPost_preserves_total_score
    (c : PostCounts) (existing : Option String) (voteType : String)
    (hv : voteType = "upvote" ∨ voteType = "downvote")
    (_hbefore : c.totalScore = c.upvotes - c.downvotes) :
    (existing = some "upvote" → voteType = "upvote" →
      voteChanges existing voteType = (-1, 0, "removed_upvote")) ∧
    (existing = some "downvote" → voteType = "downvote" →
      voteChanges existing voteType = (0, -1, "removed_downvote")) ∧
    (existing = some "downvote" → voteType = "upvote" →
      voteChanges existing voteType = (1, -1, "changed_to_upvote")) ∧
    (existing = some "upvote" → voteType = "downvote" →
      voteChanges existing voteType = (-1, 1, "changed_to_downvote")) ∧
    (existing = none → voteType = "upvote" →
      voteChanges existing voteType = (1, 0, "added_upvote")) ∧
    (existing = none → voteType = "downvote" →
      voteChanges existing voteType = (0, 1, "added_downvote")) ∧
    (voteOnPost c existing voteType).1.upvotes
      = c.upvotes + (voteChanges existing voteType).1 ∧
    (voteOnPost c existing voteType).1.downvotes
      = c.downvotes + (voteChanges existing voteType).2.1 ∧
    (voteOnPost c existing voteType).1.totalScore
      = (voteOnPost c existing voteType).1.upvotes
        - (voteOnPost c existing voteType).1.downvotes := by
  refine ⟨?_, ?_, ?_, ?_, ?_, ?_, rfl, rfl, rfl⟩ <;>
    (intro he hvt; subst he; subst hvt; decide)

theorem voteOnPost_preserves_total_score_witness :
    (voteOnPost ⟨3, 1, 2⟩ (some "downvote") "upvote").1.totalScore
      = (voteOnPost ⟨3, 1, 2⟩ (some "downvote") "upvote").1.upvotes
        - (voteOnPost ⟨3, 1, 2⟩ (some "downvote") "upvote").1.downvotes ∧
    voteChanges (some "downvote") "upvote" = (1, -1, "changed_to_upvote") :=
  have h := voteOnPost_preserves_total_score ⟨3, 1, 2⟩ (some "downvote") "upvote"
    (Or.inl rfl) (by decide)
  ⟨h.2.2.2.2.2.2.2.2, h.2.2.1 rfl rfl⟩

end JanSetu
